import Mathlib

/-!
Shallow embedding of the school-management REST backend
(src/unnamed/part_001, the rich server variant, and src/index.js, the
simplified variant, where the two differ).  Mongo documents become Lean
structures, the database becomes lists of records plus a fresh-id counter,
and each Express route handler becomes a pure function from the request
payload and the database state to a response and a new state.  Dates are
modelled as milliseconds since the epoch (Nat); JavaScript
setHours(0,0,0,0) on a UTC clock is truncation to a multiple of a day.
External libraries (bcryptjs, jsonwebtoken) are modelled behaviourally:
a bcrypt hash is an opaque value carrying its salt and source password,
with compare succeeding exactly on the source password, and a signed JWT
is a payload together with the signing secret (standing for a valid
signature) and an expiry instant.
-/

namespace SchoolMgmt

/-- Milliseconds per calendar day. -/
def msPerDay : Nat := 86400000

/-- JavaScript new Date(t).setHours(0,0,0,0) on a UTC clock: truncate a
timestamp to the start of its calendar day. -/
def startOfDay (t : Nat) : Nat := t / msPerDay * msPerDay

/-- A stored password field.  bcrypt.hash(p, rounds) is modelled as the
opaque constructor bcryptHashed with the salt and the source password;
the plaintext constructor exists only to state that what registration
stores is never the plaintext itself. -/
inductive PasswordRecord where
  | plaintext (p : String)
  | bcryptHashed (salt : Nat) (source : String)
deriving Repr, DecidableEq

/-- bcrypt.compare(p, h): succeeds exactly when h is a hash of p. -/
def bcryptCompare (p : String) : PasswordRecord → Bool
  | .plaintext q => p == q
  | .bcryptHashed _ q => p == q

/-- The payload jwt.sign embeds: (id, role) of the user. -/
structure JwtPayload where
  id : Nat
  role : String
deriving Repr, DecidableEq

/-- A signed token: payload, the secret it was signed with (a matching
secret models a valid signature, a differing one a tampered token), and
the expiry instant. -/
structure Jwt where
  payload : JwtPayload
  signedWith : String
  exp : Nat
deriving Repr, DecidableEq

/-- Seven days in milliseconds, the fixed token lifetime. -/
def sevenDaysMs : Nat := 7 * msPerDay

/-- jwt.sign(payload, secret, expiresIn 7d) at instant now. -/
def jwtSign (payload : JwtPayload) (secret : String) (now : Nat) : Jwt :=
  { payload := payload, signedWith := secret, exp := now + sevenDaysMs }

/-- jwt.verify(token, secret) at instant now: the signature must check
out and the token must not be expired. -/
def jwtVerify (t : Jwt) (secret : String) (now : Nat) : Option JwtPayload :=
  if t.signedWith == secret && now < t.exp then some t.payload else none

/-- User document (userSchema in both variants). -/
structure User where
  id : Nat
  full_name : String
  email : String
  password : PasswordRecord
  role : String
  created_at : Nat
deriving Repr, DecidableEq

/-- Student document (studentSchema, rich variant). -/
structure Student where
  id : Nat
  name : String
  rollNumber : String
  class_ : String
  age : Int
  gender : String
  email : String
  phone : Option String
  address : Option String
  guardianName : Option String
  guardianPhone : Option String
  admissionDate : Nat
  status : String
  created_at : Nat
deriving Repr, DecidableEq

/-- Grade document (gradeSchema, rich variant). -/
structure Grade where
  id : Nat
  student_id : Nat
  subject : String
  marks : Int
  grade : String
  term : String
  academic_year : String
  remarks : Option String
  created_at : Nat
deriving Repr, DecidableEq

/-- Attendance document (attendanceSchema, rich variant). -/
structure Attendance where
  id : Nat
  student_id : Nat
  date : Nat
  status : String
  remarks : Option String
  created_at : Nat
deriving Repr, DecidableEq

/-- Fee document (feeSchema, rich variant).  payment_date has schema
default Date.now; it is an Option so that absence is representable. -/
structure Fee where
  id : Nat
  student_id : Nat
  amount : Int
  payment_date : Option Nat
  payment_method : Option String
  term : String
  academic_year : String
  status : String
  receipt_number : Option String
  created_at : Nat
deriving Repr, DecidableEq

/-- Notification document (notificationSchema, rich variant). -/
structure Notification where
  id : Nat
  title : String
  message : String
  type_ : String
  category : String
  recipient : Nat
  read : Bool
  created_at : Nat
deriving Repr, DecidableEq

/-- The whole document store: one list per collection plus a counter
supplying fresh ObjectIds. -/
structure DB where
  users : List User
  students : List Student
  grades : List Grade
  attendance : List Attendance
  fees : List Fee
  notifications : List Notification
  nextId : Nat
deriving Repr, DecidableEq

/-- The empty store. -/
def emptyDB : DB :=
  { users := [], students := [], grades := [], attendance := [], fees := [],
    notifications := [], nextId := 0 }

/-- An HTTP response, reduced to its status code. -/
structure Resp where
  status : Nat
deriving Repr, DecidableEq

/-- Outcome of the authenticate middleware: no bearer token present,
token failing signature or expiry check, or decoded payload. -/
inductive AuthResult where
  | noToken
  | invalidToken
  | ok (payload : JwtPayload)
deriving Repr, DecidableEq

/-- The authenticate middleware: 401 when no bearer token is present,
the invalid-token response when jwt.verify fails, else the decoded
payload is attached to the request. -/
def authenticate (bearer : Option Jwt) (secret : String) (now : Nat) :
    AuthResult :=
  match bearer with
  | none => .noToken
  | some t =>
    match jwtVerify t secret now with
    | none => .invalidToken
    | some p => .ok p

/-- Express route composition app.verb(path, authenticate, handler): the
handler runs only when the middleware succeeds, receiving the decoded
payload; on middleware failure the store is untouched and the
middleware response (401, or 400 Invalid token) is returned. -/
def runProtected (bearer : Option Jwt) (secret : String) (now : Nat)
    (handler : JwtPayload → DB → Resp × DB) (st : DB) : Resp × DB :=
  match authenticate bearer secret now with
  | .noToken => ({ status := 401 }, st)
  | .invalidToken => ({ status := 400 }, st)
  | .ok p => handler p st

/-- Result of POST /register. -/
inductive RegisterResult where
  | conflict
  | serverError
  | created (token : Jwt) (user : User)
deriving Repr, DecidableEq

/-- Valid values of the role enum on userSchema. -/
def validRole (r : String) : Bool := r == "teacher" || r == "admin"

/-- POST /register: reject when a user with the email already exists
(400 User already exists); otherwise store the user with a bcrypt hash
of the password and role defaulting to teacher (mongoose validates the
role enum at save, surfacing a failure as 500), and return a token
signed over (id, role) with 7-day expiry. -/
def register (st : DB) (secret : String) (now salt : Nat)
    (full_name email password : String) (role : Option String) :
    RegisterResult × DB :=
  match st.users.find? (fun u => u.email == email) with
  | some _ => (.conflict, st)
  | none =>
    let user : User :=
      { id := st.nextId, full_name := full_name, email := email,
        password := .bcryptHashed salt password,
        role := role.getD "teacher", created_at := now }
    if validRole user.role then
      let token := jwtSign { id := user.id, role := user.role } secret now
      (.created token user,
       { st with users := st.users ++ [user], nextId := st.nextId + 1 })
    else
      (.serverError, st)

/-- Result of POST /login. -/
inductive LoginResult where
  | invalidCredentials
  | ok (token : Jwt) (user : User)
deriving Repr, DecidableEq

/-- POST /login: look the user up by email; missing user or failed
bcrypt comparison both yield the generic invalid-credentials response;
otherwise sign a fresh token over the stored (id, role). -/
def login (st : DB) (secret : String) (now : Nat)
    (email password : String) : LoginResult × DB :=
  match st.users.find? (fun u => u.email == email) with
  | none => (.invalidCredentials, st)
  | some u =>
    if bcryptCompare password u.password then
      (.ok (jwtSign { id := u.id, role := u.role } secret now) u, st)
    else
      (.invalidCredentials, st)

/-- DELETE /api/students/:id: 404 when no student has the id, leaving
every collection untouched; otherwise remove the student and deleteMany
the grade, attendance and fee records whose student_id matches. -/
def deleteStudent (st : DB) (id : Nat) : Resp × DB :=
  match st.students.find? (fun s => s.id == id) with
  | none => ({ status := 404 }, st)
  | some _ =>
    ({ status := 200 },
     { st with
        students := st.students.filter (fun s => !(s.id == id)),
        grades := st.grades.filter (fun g => !(g.student_id == id)),
        attendance := st.attendance.filter (fun a => !(a.student_id == id)),
        fees := st.fees.filter (fun f => !(f.student_id == id)) })

/-- Insertion into a list sorted by descending key. -/
def insertByKeyDesc (key : α → Nat) (a : α) : List α → List α
  | [] => [a]
  | b :: l => if key b < key a then a :: b :: l else b :: insertByKeyDesc key a l

/-- Sort a list by descending key (models a Mongo sort with -1). -/
def sortByKeyDesc (key : α → Nat) : List α → List α
  | [] => []
  | a :: l => insertByKeyDesc key a (sortByKeyDesc key l)

/-- GET /api/grades/student/:studentId: all grade records whose
student_id matches. -/
def gradesForStudent (st : DB) (studentId : Nat) : List Grade :=
  st.grades.filter (fun g => g.student_id == studentId)

/-- GET /api/attendance/student/:studentId: attendance records whose
student_id matches, optionally restricted to a closed date range, sorted
by date descending. -/
def attendanceForStudent (st : DB) (studentId : Nat)
    (range : Option (Nat × Nat)) : List Attendance :=
  let base := st.attendance.filter (fun a => a.student_id == studentId)
  let ranged :=
    match range with
    | none => base
    | some (lo, hi) => base.filter (fun a => lo ≤ a.date && a.date ≤ hi)
  sortByKeyDesc (fun a => a.date) ranged

/-- GET /api/fees/student/:studentId: fee records whose student_id
matches, sorted by payment_date descending (a missing date sorts as 0,
the way Mongo orders missing fields last under -1). -/
def feesForStudent (st : DB) (studentId : Nat) : List Fee :=
  sortByKeyDesc (fun f => f.payment_date.getD 0)
    (st.fees.filter (fun f => f.student_id == studentId))

/-- The letter-grade ladder computed inside POST /api/grades: grade
starts at F and the first threshold from the top that marks reaches
wins. -/
def computeGrade (marks : Int) : String :=
  if marks ≥ 90 then "A+"
  else if marks ≥ 80 then "A"
  else if marks ≥ 70 then "B"
  else if marks ≥ 60 then "C"
  else if marks ≥ 50 then "D"
  else "F"

/-- Mongoose validation of a grade document at save: marks has min 0 and
max 100 (the required string fields are always present in the model). -/
def validGradeDoc (g : Grade) : Bool := 0 ≤ g.marks && g.marks ≤ 100

/-- POST /api/grades (rich variant): derive the letter grade, save the
record — a schema validation failure is caught by the generic handler
and surfaces as 500 with nothing written — then save a notification
addressed to the acting user. -/
def postGrades (st : DB) (uid now : Nat) (student_id : Nat)
    (subject : String) (marks : Int) (term academic_year : String)
    (remarks : Option String) : Resp × DB :=
  let grade := computeGrade marks
  let gradeRecord : Grade :=
    { id := st.nextId, student_id := student_id, subject := subject,
      marks := marks, grade := grade, term := term,
      academic_year := academic_year, remarks := remarks,
      created_at := now }
  if validGradeDoc gradeRecord then
    let notification : Notification :=
      { id := st.nextId + 1, title := "Grade Added",
        message := "Grade for " ++ subject ++ " has been recorded",
        type_ := "info", category := "grade", recipient := uid,
        read := false, created_at := now }
    ({ status := 201 },
     { st with grades := st.grades ++ [gradeRecord],
               notifications := st.notifications ++ [notification],
               nextId := st.nextId + 2 })
  else
    ({ status := 500 }, st)

/-- POST /api/attendance: findOne on (student_id, the incoming date
truncated to start of day compared for equality with the stored date);
when a record is found its status and remarks are overwritten in place,
otherwise a new record is inserted carrying the raw incoming date. -/
def markAttendance (st : DB) (now : Nat) (student_id date : Nat)
    (status : String) (remarks : Option String) : Resp × DB :=
  match st.attendance.find?
      (fun a => a.student_id == student_id && a.date == startOfDay date) with
  | some a =>
    ({ status := 200 },
     { st with attendance := st.attendance.map (fun b =>
        if b.id == a.id then { b with status := status, remarks := remarks }
        else b) })
  | none =>
    let attendance : Attendance :=
      { id := st.nextId, student_id := student_id, date := date,
        status := status, remarks := remarks, created_at := now }
    ({ status := 201 },
     { st with attendance := st.attendance ++ [attendance],
               nextId := st.nextId + 1 })

/-- Partial update payload of PUT /api/students/:id (the fields the
schema validates beyond presence). -/
structure StudentUpdate where
  name : Option String
  class_ : Option String
  age : Option Int
  gender : Option String
  status : Option String
deriving Repr, DecidableEq

/-- Valid values of the gender enum on studentSchema. -/
def validGender (g : String) : Bool :=
  g == "Male" || g == "Female" || g == "Other"

/-- Valid values of the status enum on studentSchema (rich variant). -/
def validStudentStatus (s : String) : Bool :=
  s == "active" || s == "inactive" || s == "graduated"

/-- runValidators on a partial update: each present field must satisfy
its schema constraint. -/
def validStudentUpdate (u : StudentUpdate) : Bool :=
  (match u.gender with | none => true | some g => validGender g) &&
  (match u.status with | none => true | some s => validStudentStatus s)

/-- Merge a partial update into a student document. -/
def applyStudentUpdate (s : Student) (u : StudentUpdate) : Student :=
  { s with
     name := u.name.getD s.name, class_ := u.class_.getD s.class_,
     age := u.age.getD s.age, gender := u.gender.getD s.gender,
     status := u.status.getD s.status }

/-- PUT /api/students/:id: findByIdAndUpdate with runValidators — a
validation failure is caught by the generic handler and surfaces as 500
with nothing written; a missing id yields 404; otherwise the merged
document replaces the stored one. -/
def updateStudent (st : DB) (id : Nat) (u : StudentUpdate) : Resp × DB :=
  if validStudentUpdate u then
    match st.students.find? (fun s => s.id == id) with
    | none => ({ status := 404 }, st)
    | some _ =>
      ({ status := 200 },
       { st with students := st.students.map (fun s =>
          if s.id == id then applyStudentUpdate s u else s) })
  else
    ({ status := 500 }, st)

/-- POST /api/fees (rich variant): build the fee from the payload with
status defaulting to paid; payment_date is not supplied by the handler,
so the schema default Date.now applies whatever the status; then save a
notification addressed to the acting user. -/
def postFees (st : DB) (uid now : Nat) (student_id : Nat) (amount : Int)
    (payment_method : Option String) (term academic_year : String)
    (receipt_number : Option String) (status : Option String) :
    Resp × DB :=
  let fee : Fee :=
    { id := st.nextId, student_id := student_id, amount := amount,
      payment_date := some now, payment_method := payment_method,
      term := term, academic_year := academic_year,
      status := status.getD "paid", receipt_number := receipt_number,
      created_at := now }
  let notification : Notification :=
    { id := st.nextId + 1, title := "Fee Payment Recorded",
      message := "Payment has been recorded", type_ := "success",
      category := "fee", recipient := uid, read := false,
      created_at := now }
  ({ status := 201 },
   { st with fees := st.fees ++ [fee],
             notifications := st.notifications ++ [notification],
             nextId := st.nextId + 2 })

/-- The payload of GET /api/stats/dashboard. -/
structure DashboardStats where
  total_students : Nat
  active_students : Nat
  total_classes : Nat
  present_today : Nat
  pending_fees : Nat
deriving Repr, DecidableEq

/-- GET /api/stats/dashboard, with today the current instant truncated
to the start of the day: countDocuments over all students, over
status active, distinct class values, attendance records whose date
equals today exactly with status present, and fees with status
pending. -/
def dashboardStats (st : DB) (today : Nat) : DashboardStats :=
  { total_students := st.students.length,
    active_students :=
      st.students.countP (fun s => s.status == "active"),
    total_classes := (st.students.map (fun s => s.class_)).dedup.length,
    present_today :=
      st.attendance.countP
        (fun a => a.date == today && a.status == "present"),
    pending_fees := st.fees.countP (fun f => f.status == "pending") }

/-- GET /api/notifications: the records whose recipient is the caller,
sorted by created_at descending, limited when a positive limit was
passed (parseInt of a missing parameter yields the no-limit value 0). -/
def getNotifications (st : DB) (uid : Nat) (limit : Nat) :
    List Notification :=
  let mine :=
    sortByKeyDesc (fun n => n.created_at)
      (st.notifications.filter (fun n => n.recipient == uid))
  if limit == 0 then mine else mine.take limit

/-- PUT /api/notifications/:id/read: findOneAndUpdate filtered on both
the id and recipient equal to the caller; no match yields 404 and an
untouched store, otherwise the read flag of the matching record is
set. -/
def markNotificationRead (st : DB) (uid : Nat) (id : Nat) : Resp × DB :=
  match st.notifications.find?
      (fun n => n.id == id && n.recipient == uid) with
  | none => ({ status := 404 }, st)
  | some _ =>
    ({ status := 200 },
     { st with notifications := st.notifications.map (fun n =>
        if n.id == id && n.recipient == uid then { n with read := true }
        else n) })

/-- DELETE /api/notifications/:id: findOneAndDelete filtered on both the
id and recipient equal to the caller; no match yields 404 and an
untouched store, otherwise the first matching record is removed. -/
def deleteNotification (st : DB) (uid : Nat) (id : Nat) : Resp × DB :=
  match st.notifications.find?
      (fun n => n.id == id && n.recipient == uid) with
  | none => ({ status := 404 }, st)
  | some _ =>
    ({ status := 200 },
     { st with notifications :=
        st.notifications.eraseP (fun n => n.id == id && n.recipient == uid) })

namespace Simple

/-- Fee document of the simplified variant (src/index.js feeSchema):
payment_date has no default there. -/
structure Fee where
  id : Nat
  student_id : Nat
  amount : Int
  status : String
  payment_date : Option Nat
  created_at : Nat
deriving Repr, DecidableEq

/-- The fee collection of the simplified variant plus its fresh-id
counter. -/
structure FeeDB where
  fees : List Fee
  nextId : Nat
deriving Repr, DecidableEq

/-- POST /api/fees (simplified variant): status defaults to pending;
payment_date is the current instant exactly when the raw request status
is the string paid, and null otherwise. -/
def postFee (st : FeeDB) (now : Nat) (student_id : Nat) (amount : Int)
    (status : Option String) : SchoolMgmt.Resp × FeeDB :=
  let fee : Fee :=
    { id := st.nextId, student_id := student_id, amount := amount,
      status := status.getD "pending",
      payment_date := if status == some "paid" then some now else none,
      created_at := now }
  ({ status := 201 },
   { st with fees := st.fees ++ [fee], nextId := st.nextId + 1 })

/-- PUT /api/fees/:id (simplified variant): findByIdAndUpdate setting
status (an absent field in the payload is stripped, leaving the stored
value) and payment_date to now exactly when the incoming status is the
string paid and to null otherwise; a missing id yields 404 and an
untouched store. -/
def putFee (st : FeeDB) (now : Nat) (id : Nat) (status : Option String) :
    SchoolMgmt.Resp × FeeDB :=
  match st.fees.find? (fun f => f.id == id) with
  | none => ({ status := 404 }, st)
  | some _ =>
    ({ status := 200 },
     { st with fees := st.fees.map (fun f =>
        if f.id == id then
          { f with status := status.getD f.status,
                   payment_date :=
                     if status == some "paid" then some now else none }
        else f) })

/-- One fee operation of the simplified variant. -/
inductive FeeOp where
  | create (now : Nat) (student_id : Nat) (amount : Int)
      (status : Option String)
  | update (now : Nat) (id : Nat) (status : Option String)
deriving Repr, DecidableEq

/-- Apply one fee operation to the store, discarding the response. -/
def applyFeeOp (st : FeeDB) : FeeOp → FeeDB
  | .create now student_id amount status =>
    (postFee st now student_id amount status).2
  | .update now id status => (putFee st now id status).2

/-- Apply a sequence of fee operations left to right. -/
def applyFeeOps (st : FeeDB) (ops : List FeeOp) : FeeDB :=
  ops.foldl applyFeeOp st

/-- The claimed invariant on one fee record: payment_date is set only
when the status is paid. -/
def feeInv (f : Fee) : Prop := f.payment_date ≠ none → f.status = "paid"

end Simple

/-- The letter-grade ladder as the specification words it: A+ from 90,
A from 80, B from 70, C from 60, D from 50, else F. -/
def letterSpec (m : Int) : String :=
  if 90 ≤ m then "A+"
  else if 80 ≤ m then "A"
  else if 70 ≤ m then "B"
  else if 60 ≤ m then "C"
  else if 50 ≤ m then "D"
  else "F"

/-- Specification reading of active_students: the number of student
records whose status is active. -/
def activeStudentsSpec (st : DB) : Nat :=
  (st.students.filter (fun s => s.status == "active")).length

/-- Specification reading of total_classes: the number of distinct class
values among the student records. -/
def totalClassesSpec (st : DB) : Nat :=
  (st.students.map (fun s => s.class_)).toFinset.card

/-- Specification reading of present_today: the number of attendance
records falling on the day starting at today (day granularity) whose
status is present. -/
def presentTodaySpec (st : DB) (today : Nat) : Nat :=
  st.attendance.countP
    (fun a => startOfDay a.date == today && a.status == "present")

/-- Specification reading of pending_fees: the number of fee records
whose status is pending. -/
def pendingFeesSpec (st : DB) : Nat :=
  (st.fees.filter (fun f => f.status == "pending")).length

/-- A concrete student used by witnesses. -/
def wStudent : Student :=
  { id := 1, name := "Ada", rollNumber := "R1", class_ := "5A", age := 11,
    gender := "Female", email := "ada@school.test", phone := none,
    address := none, guardianName := none, guardianPhone := none,
    admissionDate := 0, status := "active", created_at := 0 }

/-- A concrete store with one student and one related record in each
child collection, used to witness the cascade delete. -/
def c2db : DB :=
  { users := [], students := [wStudent],
    grades := [{ id := 2, student_id := 1, subject := "Math", marks := 85,
                 grade := "A", term := "T1", academic_year := "Y1",
                 remarks := none, created_at := 0 }],
    attendance := [{ id := 3, student_id := 1, date := 0,
                     status := "present", remarks := none, created_at := 0 }],
    fees := [{ id := 4, student_id := 1, amount := 100, payment_date := none,
               payment_method := none, term := "T1", academic_year := "Y1",
               status := "pending", receipt_number := none,
               created_at := 0 }],
    notifications := [], nextId := 5 }

/-- A concrete notification addressed to user 2, used to witness the
notification scoping claim. -/
def c10n : Notification :=
  { id := 7, title := "t", message := "m", type_ := "info",
    category := "system", recipient := 2, read := false, created_at := 0 }

/-- A concrete store holding only c10n. -/
def c10db : DB :=
  { users := [], students := [], grades := [], attendance := [], fees := [],
    notifications := [c10n], nextId := 8 }

/-- A concrete downstream handler used to witness the middleware gate:
it answers 200 and leaves the store alone. -/
def c6handler : JwtPayload → DB → Resp × DB :=
  fun _ st => ({ status := 200 }, st)

/-- A concrete store already holding a user with the witnessed email. -/
def c5db : DB :=
  { emptyDB with
     users := [{ id := 0, full_name := "Bob", email := "b@s.test",
                 password := .bcryptHashed 3 "pw", role := "teacher",
                 created_at := 0 }],
     nextId := 1 }

/-- The letter ladder of POST /api/grades agrees with the ladder as the
specification words it. -/
theorem computeGrade_eq_letterSpec (m : Int) : computeGrade m = letterSpec m := by
  simp only [computeGrade, letterSpec, ge_iff_le]

/-- Keeping the complement of a predicate and then filtering by the
predicate leaves nothing. -/
theorem filter_not_filter_eq_nil (p : α → Bool) (l : List α) :
    (l.filter (fun a => !(p a))).filter p = [] := by
  induction l with
  | nil => rfl
  | cons a t ih =>
    by_cases h : p a <;> simp [List.filter_cons, h, ih]

/-- No element survives a search after the complement of the search
predicate was kept. -/
theorem find?_filter_not_eq_none (p : α → Bool) (l : List α) :
    (l.filter (fun a => !(p a))).find? p = none := by
  rw [List.find?_eq_none]
  intro x hx
  rcases List.mem_filter.mp hx with ⟨_, hnp⟩
  simpa using hnp

/-- Membership is preserved by descending insertion. -/
theorem mem_insertByKeyDesc {k : α → Nat} {a x : α} {l : List α} :
    x ∈ insertByKeyDesc k a l ↔ x = a ∨ x ∈ l := by
  induction l with
  | nil => simp [insertByKeyDesc]
  | cons b t ih =>
    simp only [insertByKeyDesc]
    by_cases h : k b < k a
    · simp [h]
    · simp [h, ih]
      tauto

/-- Descending sorting neither adds nor removes elements. -/
theorem mem_sortByKeyDesc {k : α → Nat} {x : α} {l : List α} :
    x ∈ sortByKeyDesc k l ↔ x ∈ l := by
  induction l with
  | nil => simp [sortByKeyDesc]
  | cons a t ih =>
    simp [sortByKeyDesc, mem_insertByKeyDesc, ih]

/-- C3: for every grade creation with marks m in the range 0 to 100, the
stored record carries the derived letter grade prescribed by the
specification ladder (A+ from 90, A from 80, B from 70, C from 60, D
from 50, else F); in particular the code yields A at 85, A+ at 95 and F
at 40. -/
theorem c3_grade_letter (st : DB) (uid now sid : Nat) (subj : String)
    (m : Int) (term ay : String) (rem : Option String)
    (h0 : 0 ≤ m) (h1 : m ≤ 100) :
    (postGrades st uid now sid subj m term ay rem).2.grades =
      st.grades ++
        [{ id := st.nextId, student_id := sid, subject := subj, marks := m,
           grade := letterSpec m, term := term, academic_year := ay,
           remarks := rem, created_at := now }] ∧
    computeGrade 85 = "A" ∧ computeGrade 95 = "A+" ∧ computeGrade 40 = "F" := by
  refine ⟨?_, by decide, by decide, by decide⟩
  simp [postGrades, validGradeDoc, h0, h1, computeGrade_eq_letterSpec]

/-- Witness for c3_grade_letter at marks 85 on the empty store. -/
theorem c3_grade_letter_witness :
    (postGrades emptyDB 0 0 1 "Math" 85 "T1" "Y1" none).2.grades =
      emptyDB.grades ++
        [{ id := emptyDB.nextId, student_id := 1, subject := "Math",
           marks := 85, grade := letterSpec 85, term := "T1",
           academic_year := "Y1", remarks := none, created_at := 0 }] ∧
    computeGrade 85 = "A" ∧ computeGrade 95 = "A+" ∧ computeGrade 40 = "F" :=
  c3_grade_letter emptyDB 0 0 1 "Math" 85 "T1" "Y1" none
    (by decide) (by decide)

/-- C7 counterexample: POST /api/grades with marks 150 fails with
status 500, not the claimed 400, and writes nothing. -/
theorem c7_counterexample :
    (postGrades emptyDB 0 0 1 "Math" 150 "T1" "Y1" none).1.status = 500 ∧
    (postGrades emptyDB 0 0 1 "Math" 150 "T1" "Y1" none).1.status ≠ 400 ∧
    (postGrades emptyDB 0 0 1 "Math" 150 "T1" "Y1" none).2 = emptyDB := by
  refine ⟨?_, ?_, ?_⟩ <;> decide

/-- C7 amended: a create or update payload violating a schema validation
rule (marks out of range on grade creation, an enum violation on a
student update) makes the operation fail with nothing inserted or
modified, but with HTTP status 500 — the mongoose validation error is
caught by the generic error handler — not 400. -/
theorem c7_validation_rejects_without_write (st : DB) (uid now sid : Nat)
    (subj : String) (m : Int) (term ay : String) (rem : Option String)
    (id : Nat) (u : StudentUpdate) :
    ((m < 0 ∨ 100 < m) →
      postGrades st uid now sid subj m term ay rem = ({ status := 500 }, st)) ∧
    (validStudentUpdate u = false →
      updateStudent st id u = ({ status := 500 }, st)) := by
  constructor
  · intro hm
    have hv : validGradeDoc
        { id := st.nextId, student_id := sid, subject := subj, marks := m,
          grade := computeGrade m, term := term, academic_year := ay,
          remarks := rem, created_at := now } = false := by
      rcases hm with hm | hm <;>
        simp [validGradeDoc, not_le.mpr hm]
    simp [postGrades, hv]
  · intro hu
    simp [updateStudent, hu]

/-- Witness for c7_validation_rejects_without_write at marks 150 and a
student update carrying an invalid status value. -/
theorem c7_validation_witness :
    postGrades emptyDB 0 0 1 "Math" 150 "T1" "Y1" none =
      ({ status := 500 }, emptyDB) ∧
    updateStudent emptyDB 1
        { name := none, class_ := none, age := none, gender := none,
          status := some "expelled" } =
      ({ status := 500 }, emptyDB) := by
  have h := c7_validation_rejects_without_write emptyDB 0 0 1 "Math" 150
    "T1" "Y1" none 1
    { name := none, class_ := none, age := none, gender := none,
      status := some "expelled" }
  exact ⟨h.1 (Or.inr (by decide)), h.2 (by decide)⟩

/-- C2: deleting an existing student removes the student and every
grade, attendance and fee record carrying its id, so the per-student
lookups afterwards return the empty list; deleting a missing id yields
404 and leaves the whole store untouched. -/
theorem c2_delete_student_cascade (st : DB) (sid : Nat) :
    ((∃ s, st.students.find? (fun t => t.id == sid) = some s) →
      (deleteStudent st sid).1 = { status := 200 } ∧
      (deleteStudent st sid).2.students.find? (fun t => t.id == sid) = none ∧
      gradesForStudent (deleteStudent st sid).2 sid = [] ∧
      (∀ range, attendanceForStudent (deleteStudent st sid).2 sid range = []) ∧
      feesForStudent (deleteStudent st sid).2 sid = []) ∧
    (st.students.find? (fun t => t.id == sid) = none →
      deleteStudent st sid = ({ status := 404 }, st)) := by
  constructor
  · rintro ⟨s, hs⟩
    have hdel : deleteStudent st sid =
        ({ status := 200 },
         { st with
            students := st.students.filter (fun t => !(t.id == sid)),
            grades := st.grades.filter (fun g => !(g.student_id == sid)),
            attendance :=
              st.attendance.filter (fun a => !(a.student_id == sid)),
            fees := st.fees.filter (fun f => !(f.student_id == sid)) }) := by
      simp [deleteStudent, hs]
    rw [hdel]
    refine ⟨rfl, ?_, ?_, ?_, ?_⟩
    · exact find?_filter_not_eq_none _ _
    · simp only [gradesForStudent]
      exact filter_not_filter_eq_nil (fun g : Grade => g.student_id == sid)
        st.grades
    · intro range
      have hbase : (st.attendance.filter
          (fun a => !(a.student_id == sid))).filter
            (fun a => a.student_id == sid) = [] :=
        filter_not_filter_eq_nil _ _
      cases range with
      | none => simp [attendanceForStudent, hbase, sortByKeyDesc]
      | some r => simp [attendanceForStudent, hbase, sortByKeyDesc]
    · have hbase : (st.fees.filter (fun f => !(f.student_id == sid))).filter
          (fun f => f.student_id == sid) = [] :=
        filter_not_filter_eq_nil _ _
      simp [feesForStudent, hbase, sortByKeyDesc]
  · intro hnone
    simp [deleteStudent, hnone]

/-- Witness for c2_delete_student_cascade: a store holding one student
with one grade, one attendance record and one fee, all removed by the
delete; the missing-id branch is witnessed on the empty store. -/
theorem c2_delete_student_cascade_witness :
    ((deleteStudent c2db 1).1 = { status := 200 } ∧
      (deleteStudent c2db 1).2.students.find? (fun t => t.id == 1) = none ∧
      gradesForStudent (deleteStudent c2db 1).2 1 = [] ∧
      (∀ range, attendanceForStudent (deleteStudent c2db 1).2 1 range = []) ∧
      feesForStudent (deleteStudent c2db 1).2 1 = []) ∧
    deleteStudent emptyDB 1 = ({ status := 404 }, emptyDB) :=
  ⟨(c2_delete_student_cascade c2db 1).1 ⟨wStudent, by decide⟩,
   (c2_delete_student_cascade emptyDB 1).2 (by decide)⟩

/-- C10: every notification operation scopes itself to the caller.  A
notification n stored for another recipient is never returned by the
list route, and mark-read and delete called with its id yield 404 and
leave the store untouched (ids are unique in the store, as Mongo
guarantees for ObjectIds). -/
theorem c10_notification_scoping (st : DB) (uid : Nat) (n : Notification)
    (_hmem : n ∈ st.notifications) (hrec : n.recipient ≠ uid)
    (huniq : ∀ m ∈ st.notifications, m.id = n.id → m = n) :
    (∀ limit, n ∉ getNotifications st uid limit) ∧
    markNotificationRead st uid n.id = ({ status := 404 }, st) ∧
    deleteNotification st uid n.id = ({ status := 404 }, st) := by
  have hfind : st.notifications.find?
      (fun m => m.id == n.id && m.recipient == uid) = none := by
    rw [List.find?_eq_none]
    intro m hm
    simp only [Bool.and_eq_true, beq_iff_eq, not_and]
    intro hid hrecm
    exact hrec ((huniq m hm hid ▸ hrecm : n.recipient = uid))
  refine ⟨?_, ?_, ?_⟩
  · intro limit hin
    have hmine : n ∈ sortByKeyDesc (fun m => m.created_at)
        (st.notifications.filter (fun m => m.recipient == uid)) := by
      by_cases h : limit == 0
      · simpa [getNotifications, h] using hin
      · exact List.mem_of_mem_take (by simpa [getNotifications, h] using hin)
    have := (List.mem_filter.mp (mem_sortByKeyDesc.mp hmine)).2
    exact hrec (by simpa using this)
  · simp [markNotificationRead, hfind]
  · simp [deleteNotification, hfind]

/-- Witness for c10_notification_scoping: a store holding exactly one
notification addressed to user 2, queried by user 1. -/
theorem c10_notification_scoping_witness :
    (∀ limit, c10n ∉ getNotifications c10db 1 limit) ∧
    markNotificationRead c10db 1 c10n.id = ({ status := 404 }, c10db) ∧
    deleteNotification c10db 1 c10n.id = ({ status := 404 }, c10db) :=
  c10_notification_scoping c10db 1 c10n (by decide) (by decide)
    (by decide)

/-- C4: registering a fresh email and then logging in with the same
email and password succeeds, and the returned token decodes to the id
and role assigned at registration. -/
theorem c4_register_login_roundtrip (st : DB) (secret : String)
    (now salt now2 : Nat) (fn e p : String) (role : Option String)
    (hfresh : st.users.find? (fun u => u.email == e) = none)
    (hrole : validRole (role.getD "teacher") = true) :
    let u0 : User :=
      { id := st.nextId, full_name := fn, email := e,
        password := .bcryptHashed salt p, role := role.getD "teacher",
        created_at := now }
    let st1 : DB :=
      { st with users := st.users ++ [u0], nextId := st.nextId + 1 }
    register st secret now salt fn e p role =
      (.created (jwtSign { id := u0.id, role := u0.role } secret now) u0,
       st1) ∧
    login st1 secret now2 e p =
      (.ok (jwtSign { id := u0.id, role := u0.role } secret now2) u0, st1) ∧
    jwtVerify (jwtSign { id := u0.id, role := u0.role } secret now2)
        secret now2 =
      some { id := u0.id, role := u0.role } := by
  intro u0 st1
  have hreg : register st secret now salt fn e p role =
      (.created (jwtSign { id := u0.id, role := u0.role } secret now) u0,
       st1) := by
    simp [register, hfresh, hrole, u0, st1]
  have hfind1 : st1.users.find? (fun u => u.email == e) = some u0 := by
    show (st.users ++ [u0]).find? (fun u => u.email == e) = some u0
    rw [List.find?_append, hfresh]
    simp [u0]
  have hlogin : login st1 secret now2 e p =
      (.ok (jwtSign { id := u0.id, role := u0.role } secret now2) u0,
       st1) := by
    simp [login, hfind1, bcryptCompare, u0]
  have hsev : 0 < sevenDaysMs := by decide
  refine ⟨hreg, hlogin, ?_⟩
  simp [jwtVerify, jwtSign, Nat.lt_add_of_pos_right hsev]

/-- Witness for c4_register_login_roundtrip on the empty store. -/
theorem c4_register_login_roundtrip_witness :
    let u0 : User :=
      { id := emptyDB.nextId, full_name := "Bob", email := "b@s.test",
        password := .bcryptHashed 3 "pw",
        role := (some "admin").getD "teacher", created_at := 10 }
    let st1 : DB :=
      { emptyDB with users := emptyDB.users ++ [u0],
                     nextId := emptyDB.nextId + 1 }
    register emptyDB "k" 10 3 "Bob" "b@s.test" "pw" (some "admin") =
      (.created (jwtSign { id := u0.id, role := u0.role } "k" 10) u0,
       st1) ∧
    login st1 "k" 20 "b@s.test" "pw" =
      (.ok (jwtSign { id := u0.id, role := u0.role } "k" 20) u0, st1) ∧
    jwtVerify (jwtSign { id := u0.id, role := u0.role } "k" 20) "k" 20 =
      some { id := u0.id, role := u0.role } :=
  c4_register_login_roundtrip emptyDB "k" 10 3 20 "Bob" "b@s.test" "pw"
    (some "admin") (by decide) (by decide)

/-- C5: registering an email already present fails with the conflict
response and the whole store, the existing user record included, is
unchanged; a successful registration stores a salted bcrypt hash of the
password, never the plaintext. -/
theorem c5_duplicate_registration (st : DB) (secret : String)
    (now salt : Nat) (fn e p : String) (role : Option String) :
    ((∃ u, st.users.find? (fun v => v.email == e) = some u) →
      register st secret now salt fn e p role = (.conflict, st)) ∧
    (st.users.find? (fun v => v.email == e) = none →
      validRole (role.getD "teacher") = true →
      (register st secret now salt fn e p role).2.users =
        st.users ++
          [{ id := st.nextId, full_name := fn, email := e,
             password := .bcryptHashed salt p, role := role.getD "teacher",
             created_at := now }] ∧
      ∀ q : String,
        (PasswordRecord.bcryptHashed salt p) ≠ .plaintext q) := by
  constructor
  · rintro ⟨u, hu⟩
    simp [register, hu]
  · intro hfresh hrole
    refine ⟨by simp [register, hfresh, hrole], ?_⟩
    intro q h
    exact PasswordRecord.noConfusion h

/-- Witness for c5_duplicate_registration: the conflict branch on a
store already holding the email, the hashed-storage branch on the empty
store. -/
theorem c5_duplicate_registration_witness :
    register c5db "k" 0 3 "Bob" "b@s.test" "pw" none = (.conflict, c5db) ∧
    ((register emptyDB "k" 0 3 "Bob" "b@s.test" "pw" none).2.users =
        emptyDB.users ++
          [{ id := emptyDB.nextId, full_name := "Bob", email := "b@s.test",
             password := .bcryptHashed 3 "pw",
             role := (none : Option String).getD "teacher",
             created_at := 0 }] ∧
      ∀ q : String,
        (PasswordRecord.bcryptHashed 3 "pw") ≠ .plaintext q) :=
  ⟨(c5_duplicate_registration c5db "k" 0 3 "Bob" "b@s.test" "pw" none).1
      ⟨{ id := 0, full_name := "Bob", email := "b@s.test",
         password := .bcryptHashed 3 "pw", role := "teacher",
         created_at := 0 }, by decide⟩,
   (c5_duplicate_registration emptyDB "k" 0 3 "Bob" "b@s.test" "pw" none).2
      (by decide) (by decide)⟩

/-- C6: a protected route called without a bearer token answers 401 and
performs no store operation; called with a tampered or expired token it
answers with the invalid-token response (400) and performs no store
operation; called with a valid token the downstream handler runs with
the decoded id and role. -/
theorem c6_auth_gate (secret : String) (now : Nat)
    (handler : JwtPayload → DB → Resp × DB) (st : DB) :
    runProtected none secret now handler st = ({ status := 401 }, st) ∧
    (∀ t : Jwt, t.signedWith ≠ secret ∨ t.exp ≤ now →
      runProtected (some t) secret now handler st =
        ({ status := 400 }, st)) ∧
    (∀ t : Jwt, t.signedWith = secret → now < t.exp →
      runProtected (some t) secret now handler st = handler t.payload st) := by
  refine ⟨rfl, ?_, ?_⟩
  · intro t ht
    have hv : jwtVerify t secret now = none := by
      rcases ht with h | h
      · simp [jwtVerify, h]
      · simp [jwtVerify, Nat.not_lt.mpr h]
    simp [runProtected, authenticate, hv]
  · intro t h1 h2
    simp [runProtected, authenticate, jwtVerify, h1, h2]

/-- Witness for c6_auth_gate: the missing-token, tampered-token and
valid-token cases at concrete inputs. -/
theorem c6_auth_gate_witness :
    runProtected none "k" 0 c6handler emptyDB = ({ status := 401 }, emptyDB) ∧
    runProtected
        (some { payload := { id := 9, role := "admin" },
                signedWith := "bad", exp := 100 }) "k" 0 c6handler emptyDB =
      ({ status := 400 }, emptyDB) ∧
    runProtected
        (some { payload := { id := 9, role := "admin" },
                signedWith := "k", exp := 100 }) "k" 0 c6handler emptyDB =
      c6handler { id := 9, role := "admin" } emptyDB := by
  have h := c6_auth_gate "k" 0 c6handler emptyDB
  exact ⟨h.1, h.2.1 _ (Or.inl (by decide)), h.2.2 _ rfl (by decide)⟩

/-- A fee written through the simplified-variant handlers satisfies the
payment-date invariant: the written payment_date is non-null exactly
when the incoming status string is paid, which then also becomes the
stored status. -/
theorem Simple.feeInv_writeShape (i sid : Nat) (amt : Int) (now cAt : Nat)
    (status : Option String) (s0 : String) :
    Simple.feeInv
      { id := i, student_id := sid, amount := amt,
        status := status.getD s0,
        payment_date := if status == some "paid" then some now else none,
        created_at := cAt } := by
  by_cases h : status = some "paid"
  · subst h
    simp [Simple.feeInv]
  · have hb : (status == some "paid") = false := by simp [h]
    simp [Simple.feeInv, hb]

/-- One simplified-variant fee operation preserves the payment-date
invariant across the whole collection. -/
theorem Simple.applyFeeOp_preserves (st : Simple.FeeDB) (op : Simple.FeeOp)
    (hInv : ∀ f ∈ st.fees, Simple.feeInv f) :
    ∀ f ∈ (Simple.applyFeeOp st op).fees, Simple.feeInv f := by
  cases op with
  | create now sid amt status =>
    intro f hf
    simp only [Simple.applyFeeOp, Simple.postFee, List.mem_append,
      List.mem_singleton] at hf
    rcases hf with hf | rfl
    · exact hInv f hf
    · exact Simple.feeInv_writeShape _ _ _ _ _ _ _
  | update now id status =>
    cases hfind : st.fees.find? (fun f => f.id == id) with
    | none =>
      intro f hf
      simp only [Simple.applyFeeOp, Simple.putFee, hfind] at hf
      exact hInv f hf
    | some g =>
      intro f hf
      simp only [Simple.applyFeeOp, Simple.putFee, hfind] at hf
      rcases List.mem_map.mp hf with ⟨g2, hg2, rfl⟩
      by_cases hid : (g2.id == id) = true
      · rw [if_pos hid]
        exact Simple.feeInv_writeShape _ _ _ _ _ _ _
      · rw [if_neg hid]
        exact hInv g2 hg2

/-- Any sequence of simplified-variant fee operations preserves the
payment-date invariant. -/
theorem Simple.applyFeeOps_preserves (st : Simple.FeeDB)
    (ops : List Simple.FeeOp) (hInv : ∀ f ∈ st.fees, Simple.feeInv f) :
    ∀ f ∈ (Simple.applyFeeOps st ops).fees, Simple.feeInv f := by
  induction ops generalizing st with
  | nil => simpa [Simple.applyFeeOps] using hInv
  | cons op rest ih =>
    have h1 := Simple.applyFeeOp_preserves st op hInv
    simpa [Simple.applyFeeOps, List.foldl_cons] using
      ih (Simple.applyFeeOp st op) h1

/-- C8 counterexample: in the rich variant, POST /api/fees with status
pending stores a fee whose payment_date is set (the schema default
Date.now applies whatever the status), violating the claimed
invariant. -/
theorem c8_counterexample :
    ¬ (∀ f ∈ (postFees emptyDB 0 5 1 100 none "T1" "Y1" none
          (some "pending")).2.fees,
        f.payment_date ≠ none → f.status = "paid") := by
  decide

/-- C8 amended: in the simplified variant (src/index.js), after any
sequence of fee create and update operations starting from a store
satisfying it, every fee record has payment_date set only if its status
is paid, and creating or updating a fee with status pending leaves its
payment_date unset; the rich variant violates the invariant at
creation, as the counterexample shows. -/
theorem c8_fee_payment_date_invariant (st : Simple.FeeDB)
    (ops : List Simple.FeeOp)
    (hInv : ∀ f ∈ st.fees, Simple.feeInv f) :
    (∀ f ∈ (Simple.applyFeeOps st ops).fees, Simple.feeInv f) ∧
    (∀ now sid amt,
      ∀ f ∈ (Simple.postFee st now sid amt (some "pending")).2.fees,
        f ∈ st.fees ∨ f.payment_date = none) ∧
    (∀ now id,
      ∀ f ∈ (Simple.putFee st now id (some "pending")).2.fees,
        f ∈ st.fees ∨ f.payment_date = none) := by
  have hpend : ((some "pending" : Option String) == some "paid") = false := by
    decide
  refine ⟨Simple.applyFeeOps_preserves st ops hInv, ?_, ?_⟩
  · intro now sid amt f hf
    simp only [Simple.postFee, List.mem_append, List.mem_singleton] at hf
    rcases hf with hf | rfl
    · exact Or.inl hf
    · right
      simp [hpend]
  · intro now id f hf
    cases hfind : st.fees.find? (fun f => f.id == id) with
    | none =>
      simp only [Simple.putFee, hfind] at hf
      exact Or.inl hf
    | some g =>
      simp only [Simple.putFee, hfind] at hf
      rcases List.mem_map.mp hf with ⟨g2, hg2, rfl⟩
      by_cases hid : (g2.id == id) = true
      · rw [if_pos hid]
        right
        simp [hpend]
      · rw [if_neg hid]
        exact Or.inl hg2

/-- Witness for c8_fee_payment_date_invariant: the empty fee store under
a concrete create-then-update sequence. -/
theorem c8_fee_payment_date_invariant_witness :
    (∀ f ∈ (Simple.applyFeeOps { fees := [], nextId := 0 }
        [.create 1 1 100 (some "paid"), .update 2 0 (some "pending")]).fees,
      Simple.feeInv f) ∧
    (∀ now sid amt,
      ∀ f ∈ (Simple.postFee { fees := [], nextId := 0 } now sid amt
          (some "pending")).2.fees,
        f ∈ Simple.FeeDB.fees { fees := [], nextId := 0 } ∨
        f.payment_date = none) ∧
    (∀ now id,
      ∀ f ∈ (Simple.putFee { fees := [], nextId := 0 } now id
          (some "pending")).2.fees,
        f ∈ Simple.FeeDB.fees { fees := [], nextId := 0 } ∨
        f.payment_date = none) :=
  c8_fee_payment_date_invariant { fees := [], nextId := 0 }
    [.create 1 1 100 (some "paid"), .update 2 0 (some "pending")]
    (by simp)

/-- C9 counterexample: an attendance record marked through the API for
today but with a time of day (one hour past midnight) is an attendance
record for today with status present, yet the dashboard counts it as
zero because the query compares the stored date with the start of today
for exact equality. -/
theorem c9_counterexample :
    (dashboardStats (markAttendance emptyDB 0 1 3600000 "present" none).2
        0).present_today = 0 ∧
    presentTodaySpec (markAttendance emptyDB 0 1 3600000 "present" none).2
        0 = 1 := by
  constructor <;> decide

/-- C9 amended: the dashboard computes total_students as the count of
all student records, active_students as the count of records with
status active, total_classes as the number of distinct class values,
pending_fees as the count of fee records with status pending, each
fresh from the given store; present_today counts the attendance records
whose stored date equals the start of today exactly, which agrees with
the number of attendance records for today with status present only
when every stored attendance date is itself a start of day. -/
theorem c9_dashboard_stats (st : DB) (today : Nat)
    (hdates : ∀ a ∈ st.attendance, startOfDay a.date = a.date) :
    (dashboardStats st today).total_students = st.students.length ∧
    (dashboardStats st today).active_students = activeStudentsSpec st ∧
    (dashboardStats st today).total_classes = totalClassesSpec st ∧
    (dashboardStats st today).pending_fees = pendingFeesSpec st ∧
    (dashboardStats st today).present_today = presentTodaySpec st today := by
  refine ⟨rfl, ?_, ?_, ?_, ?_⟩
  · simp [dashboardStats, activeStudentsSpec, List.countP_eq_length_filter]
  · simp [dashboardStats, totalClassesSpec, List.card_toFinset]
  · simp [dashboardStats, pendingFeesSpec, List.countP_eq_length_filter]
  · simp only [dashboardStats, presentTodaySpec]
    refine List.countP_congr (fun a ha => ?_)
    rw [hdates a ha]

/-- Witness for c9_dashboard_stats: the c2db store, whose only
attendance date is a start of day, read at day zero. -/
theorem c9_dashboard_stats_witness :
    (dashboardStats c2db 0).total_students = c2db.students.length ∧
    (dashboardStats c2db 0).active_students = activeStudentsSpec c2db ∧
    (dashboardStats c2db 0).total_classes = totalClassesSpec c2db ∧
    (dashboardStats c2db 0).pending_fees = pendingFeesSpec c2db ∧
    (dashboardStats c2db 0).present_today = presentTodaySpec c2db 0 :=
  c9_dashboard_stats c2db 0 (by decide)

/-- C1 counterexample: marking attendance for student 1 on day zero
first at one hour past midnight and then at midnight leaves two
attendance records for that (student, day) pair, not one — the lookup
truncates only the incoming date and compares it with the stored date,
which kept its time of day. -/
theorem c1_counterexample :
    (markAttendance (markAttendance emptyDB 0 1 3600000 "present" none).2
        1 1 0 "absent" none).2.attendance.countP
      (fun a => a.student_id == 1 && startOfDay a.date == 0) = 2 ∧
    ¬ ((markAttendance (markAttendance emptyDB 0 1 3600000 "present" none).2
        1 1 0 "absent" none).2.attendance.countP
      (fun a => a.student_id == 1 && startOfDay a.date == 0) = 1) := by
  constructor <;> decide

/-- C1 amended: when the first request carries the start of day d
itself (a date-only value), marking attendance twice for (student, d)
leaves exactly one record for that pair, updated in place — the second
request may carry any time of day within d, since only its start-of-day
truncation is used for the lookup — and its status and remarks reflect
the second call; as the counterexample shows, a first request with a
nonzero time of day within d instead yields a second, duplicate
record. -/
theorem c1_attendance_upsert (st : DB) (now1 now2 s d1 d2 : Nat)
    (stat1 stat2 : String) (r1 r2 : Option String)
    (hfresh : ∀ a ∈ st.attendance, a.id ≠ st.nextId)
    (hd1 : startOfDay d1 = d1)
    (hd2 : startOfDay d2 = d1)
    (hnone : st.attendance.filter
        (fun a => a.student_id == s && startOfDay a.date == d1) = []) :
    (markAttendance (markAttendance st now1 s d1 stat1 r1).2 now2 s d2
        stat2 r2).2.attendance =
      st.attendance ++
        [{ id := st.nextId, student_id := s, date := d1, status := stat2,
           remarks := r2, created_at := now1 }] ∧
    (markAttendance (markAttendance st now1 s d1 stat1 r1).2 now2 s d2
        stat2 r2).2.attendance.filter
        (fun a => a.student_id == s && startOfDay a.date == d1) =
      [{ id := st.nextId, student_id := s, date := d1, status := stat2,
         remarks := r2, created_at := now1 }] ∧
    (markAttendance (markAttendance st now1 s d1 stat1 r1).2 now2 s d2
        stat2 r2).2.attendance.length =
      (markAttendance st now1 s d1 stat1 r1).2.attendance.length := by
  have hmem : ∀ a ∈ st.attendance,
      ¬ ((a.student_id == s && startOfDay a.date == d1) = true) :=
    List.filter_eq_nil_iff.mp hnone
  have hnomatch : ∀ d : Nat, startOfDay d = d1 → ∀ a ∈ st.attendance,
      ¬ ((a.student_id == s && a.date == startOfDay d) = true) := by
    intro d hd a ha h
    simp only [Bool.and_eq_true, beq_iff_eq] at h
    rcases h with ⟨hsid, hdate⟩
    apply hmem a ha
    simp only [Bool.and_eq_true, beq_iff_eq]
    refine ⟨hsid, ?_⟩
    rw [hdate, hd]
    exact hd1
  have hfind1 : st.attendance.find?
      (fun a => a.student_id == s && a.date == startOfDay d1) = none :=
    List.find?_eq_none.mpr (hnomatch d1 hd1)
  have hstep1 : (markAttendance st now1 s d1 stat1 r1).2 =
      { st with
         attendance := st.attendance ++
           [{ id := st.nextId, student_id := s, date := d1, status := stat1,
              remarks := r1, created_at := now1 }],
         nextId := st.nextId + 1 } := by
    simp [markAttendance, hfind1]
  have hfind2 : List.find?
      (fun a : Attendance => a.student_id == s && a.date == startOfDay d2)
      (st.attendance ++
        [{ id := st.nextId, student_id := s, date := d1, status := stat1,
           remarks := r1, created_at := now1 }]) =
      some { id := st.nextId, student_id := s, date := d1, status := stat1,
             remarks := r1, created_at := now1 } := by
    rw [List.find?_append, List.find?_eq_none.mpr (hnomatch d2 hd2)]
    simp [hd2]
  have hmapcong : ∀ a ∈ st.attendance, (fun b : Attendance =>
      if b.id = st.nextId then
        { b with status := stat2, remarks := r2 } else b) a = id a := by
    intro a ha
    simp [hfresh a ha]
  have hmapid : st.attendance.map (fun b : Attendance =>
      if b.id = st.nextId then
        { b with status := stat2, remarks := r2 } else b) = st.attendance := by
    rw [List.map_congr_left hmapcong, List.map_id]
  have hstep2 : (markAttendance (markAttendance st now1 s d1 stat1 r1).2
      now2 s d2 stat2 r2).2.attendance =
      st.attendance ++
        [{ id := st.nextId, student_id := s, date := d1, status := stat2,
           remarks := r2, created_at := now1 }] := by
    rw [hstep1]
    simp [markAttendance, hfind2, hmapid]
  refine ⟨hstep2, ?_, ?_⟩
  · rw [hstep2, List.filter_append, hnone]
    simp [hd1]
  · rw [hstep2, hstep1]
    simp

/-- Witness for c1_attendance_upsert: an empty store, first mark at the
start of day zero, second mark one hour into day zero. -/
theorem c1_attendance_upsert_witness :
    (markAttendance (markAttendance emptyDB 5 1 0 "present" none).2 6 1
        3600000 "absent" (some "late note")).2.attendance =
      emptyDB.attendance ++
        [{ id := emptyDB.nextId, student_id := 1, date := 0,
           status := "absent", remarks := some "late note",
           created_at := 5 }] ∧
    (markAttendance (markAttendance emptyDB 5 1 0 "present" none).2 6 1
        3600000 "absent" (some "late note")).2.attendance.filter
        (fun a => a.student_id == 1 && startOfDay a.date == 0) =
      [{ id := emptyDB.nextId, student_id := 1, date := 0,
         status := "absent", remarks := some "late note",
         created_at := 5 }] ∧
    (markAttendance (markAttendance emptyDB 5 1 0 "present" none).2 6 1
        3600000 "absent" (some "late note")).2.attendance.length =
      (markAttendance emptyDB 5 1 0 "present" none).2.attendance.length :=
  c1_attendance_upsert emptyDB 5 6 1 0 3600000 "present" "absent" none
    (some "late note") (by decide) (by decide) (by decide) (by decide)

end SchoolMgmt

